import Mathlib

/-!
# Verification of the ADBA multi-tenant database core

Shallow embedding of the core of the ADBA (Android Database Application)
Tauri backend: the tenant database engine (`src-tauri/src/database.rs`),
the shared process state (`src-tauri/src/state.rs`) and the REST handlers
(`src-tauri/src/server.rs`).

Modelling conventions:
* SQLite cell values are the tagged variant `SqlValue`; the `f64` payload of a
  `REAL` cell is modelled abstractly as a rational (`Rat`) — none of the
  verified properties computes with float arithmetic, they only track which
  JSON variant a cell is coerced to.
* Rust's Unicode `char::is_alphanumeric` / `to_lowercase` / `to_uppercase` /
  `trim` are modelled by Lean's ASCII `Char.isAlphanum` / `Char.toLower` /
  `String.toUpper` / `String.trim`.
* The filesystem under the data directory is a list of `(filename, FileInfo)`
  pairs; `FileInfo.readable` models whether `fs::metadata` / `Connection::open`
  succeed on the file.  The metadata catalog (`metadata.db`'s `databases`
  table) is modelled directly as a list of rows.
* What SQLite itself does with a statement text is external to the repository;
  `execute_query` therefore takes a `StmtSem` oracle giving the outcome of the
  prepared SELECT (column names and raw rows) and of `conn.execute` (affected
  row count).  Everything the repository's own code does — path resolution,
  file creation on open, statement classification, per-cell result coercion,
  error wrapping — is embedded from the source.
-/

namespace Adba

/-- A raw SQLite cell value as seen through rusqlite's `ValueRef`. -/
inductive SqlValue where
  | null
  | integer (i : Int)
  | real (r : Rat)
  | text (s : String)
  | blob (b : List Nat)
deriving DecidableEq, Repr

/-- A JSON value (`serde_json::Value`), restricted to what the code produces. -/
inductive Json where
  | null
  | str (s : String)
  | int (i : Int)
  | float (r : Rat)
  | arr (xs : List Json)
  | obj (fields : List (String × Json))

/-- rusqlite `row.get::<_, String>(i)`: `FromSql` for `String` succeeds exactly
on `TEXT` cells. -/
def getString : SqlValue → Option String
  | .text s => some s
  | _ => none

/-- rusqlite `row.get::<_, i64>(i)`: `FromSql` for `i64` succeeds exactly on
`INTEGER` cells. -/
def getI64 : SqlValue → Option Int
  | .integer i => some i
  | _ => none

/-- rusqlite `row.get::<_, f64>(i)`: `FromSql` for `f64` succeeds on `REAL`
cells and on `INTEGER` cells (converted). -/
def getF64 : SqlValue → Option Rat
  | .integer i => some (i : Rat)
  | .real r => some r
  | _ => none

/-- The result-cell coercion of `execute_query` (database.rs:269-281): try
`String`, then `i64`, then `f64`, else JSON null. -/
def coerceCell (v : SqlValue) : Json :=
  match getString v with
  | some s => .str s
  | none =>
    match getI64 v with
    | some i => .int i
    | none =>
      match getF64 v with
      | some r => .float r
      | none => .null

/-- One result row serialized to a JSON object (database.rs:266-284): the loop
over `column_names.iter().enumerate()` reading `row.get(i)`.  An out-of-range
index makes all three typed reads fail, exactly like a NULL cell, hence the
`.null` default. -/
def rowToObj (cols : List String) (row : List SqlValue) : Json :=
  .obj (cols.enum.map (fun p => (p.2, coerceCell (row.getD p.1 .null))))

/-- The JSON value returned for a SELECT: the array of row objects
(database.rs:263-287). -/
def selectResultJson (cols : List String) (rows : List (List SqlValue)) : Json :=
  .arr (rows.map (rowToObj cols))

/-- Rust `str::trim`: drop leading and trailing whitespace.  Implemented on
the character list so that it evaluates by kernel reduction. -/
def rust_trim (s : String) : String :=
  String.mk (((s.data.dropWhile Char.isWhitespace).reverse.dropWhile
    Char.isWhitespace).reverse)

/-- Rust `str::to_uppercase`, modelled per-character on ASCII. -/
def rust_to_uppercase (s : String) : String :=
  String.mk (s.data.map Char.toUpper)

/-- `sanitize_name` (database.rs:327-332): keep alphanumeric and underscore
characters, then lower-case. -/
def sanitize_name (name : String) : String :=
  String.mk ((name.data.filter (fun c => c.isAlphanum || c == '_')).map Char.toLower)

/-- The on-disk filename of a tenant database:
`format!("{}.db", sanitize_name(name))` (database.rs:83, 140, 189, 217, 246). -/
def db_filename (name : String) : String :=
  sanitize_name name ++ ".db"

/-- The error enum of `error.rs` (payloads are display strings). -/
inductive AdbaError where
  | Database (msg : String)
  | Server (msg : String)
  | Network (msg : String)
  | Discovery (msg : String)
  | Auth (msg : String)
  | NotFound (msg : String)
  | Io (msg : String)
deriving DecidableEq, Repr

/-- A row of the `databases` catalog table in `metadata.db`
(database.rs:60-65). -/
structure DbRecord where
  id : String
  name : String
  client_app : String
  created_at : Int
deriving DecidableEq, Repr

/-- `DatabaseStatus` (database.rs:28-34). -/
inductive DatabaseStatus where
  | Active
  | Syncing
  | Offline
  | Error
deriving DecidableEq, Repr

/-- `DatabaseInfo` (database.rs:17-26). -/
structure DatabaseInfo where
  id : String
  name : String
  client_app : String
  created_at : Int
  size_bytes : Nat
  tables_count : Nat
  status : DatabaseStatus
deriving DecidableEq, Repr

/-- A file in the data directory.  `readable` models whether `fs::metadata`
and `Connection::open` succeed on it; `tables` is the number of rows of
`sqlite_master WHERE type='table'`. -/
structure FileInfo where
  size : Nat
  tables : Nat
  readable : Bool
deriving DecidableEq, Repr

/-- The engine-visible state: the catalog rows of `metadata.db` and the
tenant `.db` files under the data directory. -/
structure EngineState where
  catalog : List DbRecord
  files : List (String × FileInfo)
deriving DecidableEq, Repr

/-- Look a filename up in the data directory. -/
def lookupFile (files : List (String × FileInfo)) (path : String) : Option FileInfo :=
  (files.find? (fun p => p.1 == path)).map Prod.snd

/-- `get_file_size` (database.rs:343-347):
`fs::metadata(path).map(|m| m.len()).unwrap_or(0)` — any failure gives 0. -/
def get_file_size (files : List (String × FileInfo)) (path : String) : Nat :=
  match lookupFile files path with
  | some f => if f.readable then f.size else 0
  | none => 0

/-- `get_table_count` (database.rs:350-361): count tables via `sqlite_master`;
every failure path (open, prepare, query) falls through to 0.  Opening an
absent path creates a fresh empty database, which also has 0 tables. -/
def get_table_count (files : List (String × FileInfo)) (path : String) : Nat :=
  match lookupFile files path with
  | some f => if f.readable then f.tables else 0
  | none => 0

/-- `Connection::open(path)`: fails when the existing file is unreadable;
creates an empty zero-byte database file when the path does not exist. -/
def connOpen (files : List (String × FileInfo)) (path : String) :
    Except String (List (String × FileInfo)) :=
  match lookupFile files path with
  | some f => if f.readable then .ok files else .error "unable to open database file"
  | none => .ok ((path, ⟨0, 0, true⟩) :: files)

/-- The derived `DatabaseInfo` built from a catalog row plus live filesystem
inspection, as in `list_databases` (database.rs:140-152) and `get_database`
(database.rs:189-199). -/
def toInfo (files : List (String × FileInfo)) (r : DbRecord) : DatabaseInfo :=
  let db_path := db_filename r.name
  { id := r.id
    name := r.name
    client_app := r.client_app
    created_at := r.created_at
    size_bytes := get_file_size files db_path
    tables_count := get_table_count files db_path
    status := .Active }

/-- `create_database` (database.rs:79-120).  `id` stands for the fresh UUID
and `now` for `chrono_timestamp()`, both produced outside the embedded logic.
The tenant file is created by `Connection::open` before the catalog INSERT;
the INSERT fails on the UNIQUE constraint when the raw `name` is already a
catalog row. -/
def create_database (s : EngineState) (id : String) (now : Int)
    (name client_app : String) : EngineState × Except AdbaError DatabaseInfo :=
  match connOpen s.files (db_filename name) with
  | .error e => (s, .error (.Database e))
  | .ok files' =>
    if s.catalog.any (fun r => r.name == name) then
      ({ s with files := files' },
       .error (.Database "UNIQUE constraint failed: databases.name"))
    else
      ({ catalog := ⟨id, name, client_app, now⟩ :: s.catalog, files := files' },
       .ok
        { id := id
          name := name
          client_app := client_app
          created_at := now
          size_bytes := get_file_size files' (db_filename name)
          tables_count := 0
          status := .Active })

/-- `ORDER BY created_at DESC` on the catalog rows. -/
def byCreatedDesc (a b : DbRecord) : Prop :=
  a.created_at ≥ b.created_at

instance : DecidableRel byCreatedDesc := fun a b =>
  inferInstanceAs (Decidable (a.created_at ≥ b.created_at))

instance : IsTotal DbRecord byCreatedDesc :=
  ⟨fun a b => le_total b.created_at a.created_at⟩

instance : IsTrans DbRecord byCreatedDesc :=
  ⟨fun _ _ _ h₁ h₂ => le_trans h₂ h₁⟩

/-- `list_databases` (database.rs:123-168): SELECT the catalog rows ordered by
`created_at` descending and join each with live filesystem inspection. -/
def list_databases (s : EngineState) : Except AdbaError (List DatabaseInfo) :=
  .ok ((s.catalog.insertionSort byCreatedDesc).map (toInfo s.files))

/-- `get_database` (database.rs:171-212): `WHERE name = ?1` on the raw name;
`QueryReturnedNoRows` is mapped to `None`, not an error. -/
def get_database (s : EngineState) (name : String) :
    Except AdbaError (Option DatabaseInfo) :=
  match s.catalog.find? (fun r => r.name == name) with
  | some r => .ok (some (toInfo s.files r))
  | none => .ok none

/-- `delete_database` (database.rs:215-238): `DELETE FROM databases WHERE
name = ?1` (deleting nothing is fine), then remove the backing file only
`if db_path.exists()`. -/
def delete_database (s : EngineState) (name : String) :
    EngineState × Except AdbaError Unit :=
  ({ catalog := s.catalog.filter (fun r => !(r.name == name))
     files :=
       if (lookupFile s.files (db_filename name)).isSome then
         s.files.filter (fun p => !(p.1 == db_filename name))
       else s.files },
   .ok ())

/-- What SQLite does with a statement text against the opened connection —
external to the repository, supplied as an oracle: the outcome of
`stmt.prepare`/`query` for the SELECT branch (column names and raw rows) and
of `conn.execute` for the mutation branch (affected count). -/
structure StmtSem where
  select : Except String (List String × List (List SqlValue))
  affected : Except String Nat

/-- The statement classification of `execute_query` (database.rs:252-254):
`query.trim().to_uppercase().starts_with("SELECT")`. -/
def is_select_query (query : String) : Bool :=
  "SELECT".data.isPrefixOf (rust_to_uppercase (rust_trim query)).data

/-- `execute_query` (database.rs:241-300): resolve the name to its file, open
it (creating it when absent — there is no catalog lookup on this path),
classify by the case-insensitive SELECT-prefix test, and either serialize the
rows (per-cell coercion) or return `{"affected_rows": n}`.  All engine errors
become `AdbaError::Database(msg)`. -/
def execute_query (s : EngineState) (database query : String) (sem : StmtSem) :
    EngineState × Except AdbaError Json :=
  match connOpen s.files (db_filename database) with
  | .error e => (s, .error (.Database e))
  | .ok files' =>
    if is_select_query query then
      match sem.select with
      | .ok (cols, rows) => ({ s with files := files' }, .ok (selectResultJson cols rows))
      | .error e => ({ s with files := files' }, .error (.Database e))
    else
      match sem.affected with
      | .ok n => ({ s with files := files' }, .ok (.obj [("affected_rows", .int n)]))
      | .error e => ({ s with files := files' }, .error (.Database e))

/-- `generate_pairing_code` (state.rs:117-120): the first 6 characters of a
fresh UUID string, upper-cased.  The UUID is produced by the RNG and passed in
here. -/
def generate_pairing_code (uuid : String) : String :=
  rust_to_uppercase (String.mk (uuid.data.take 6))

/-- `AppState` (state.rs:11-17) restricted to the pairing-code fields: the
`pub pairing_code: String` copy frozen at construction, and the contents of
the `pairing_code_inner: RwLock<String>`. -/
structure AppStateM where
  pairing_code : String
  pairing_code_inner : String
deriving DecidableEq, Repr

/-- `AppState::new` (state.rs:46-55): one generated code initializes both the
frozen public field and the lock-protected inner value. -/
def appStateNew (uuid : String) : AppStateM :=
  let code := generate_pairing_code uuid
  ⟨code, code⟩

/-- `regenerate_pairing_code` (state.rs:84-88): writes a freshly generated
code into `pairing_code_inner` (the frozen `pairing_code` field is untouched)
and returns it. -/
def regenerate_pairing_code (st : AppStateM) (uuid : String) :
    AppStateM × String :=
  let new_code := generate_pairing_code uuid
  ({ st with pairing_code_inner := new_code }, new_code)

/-- `validate_pairing_code` (state.rs:90-92): exact string equality with the
current inner value. -/
def validate_pairing_code (st : AppStateM) (code : String) : Bool :=
  st.pairing_code_inner == code

/-- The `GET /api/pairing-code` handler (server.rs:219-224): it clones the
frozen `state.pairing_code` field, not the lock-protected inner value. -/
def get_pairing_code (st : AppStateM) : String :=
  st.pairing_code

/-- The `POST /api/pairing-code` handler (server.rs:226-231). -/
def regenerate_pairing_code_handler (st : AppStateM) (uuid : String) :
    AppStateM × String :=
  regenerate_pairing_code st uuid

/-- An HTTP response at the level the claims need: status code, the `success`
flag of the envelope, and the `error` string. -/
structure HttpResponse where
  status : Nat
  success : Bool
  error : Option String
deriving DecidableEq, Repr

/-- The `POST /api/query` handler (server.rs:196-209): reject with 401
"Invalid pairing code" before touching any database; otherwise run the
statement, 200 on success and 400 on failure. -/
def execute_query_handler (st : AppStateM) (es : EngineState)
    (database query pairing_code : String) (sem : StmtSem) :
    HttpResponse × EngineState :=
  if ¬ validate_pairing_code st pairing_code then
    ({ status := 401, success := false, error := some "Invalid pairing code" }, es)
  else
    match execute_query es database query sem with
    | (es', .ok _) => ({ status := 200, success := true, error := none }, es')
    | (es', .error (.Database m)) =>
      ({ status := 400, success := false, error := some ("Database error: " ++ m) }, es')
    | (es', .error _) =>
      ({ status := 400, success := false, error := none }, es')

end Adba

namespace Adba

/-- C1.  The SELECT result is built cell-by-cell, each cell coerced
independently per column per row; the coercion tries string, then 64-bit
integer, then 64-bit float, then null, so a TEXT cell holding "42" comes back
as the JSON string "42" while an INTEGER cell comes back as a JSON number;
cells on which all three typed reads fail become JSON null. -/
theorem c1_select_cell_coercion :
    (∀ cols rows, selectResultJson cols rows =
      .arr (rows.map (fun r =>
        Json.obj (cols.enum.map (fun p => (p.2, coerceCell (r.getD p.1 .null))))))) ∧
    (∀ v, coerceCell v =
      match v with
      | .text s => .str s
      | .integer i => .int i
      | .real r => .float r
      | .null => .null
      | .blob _ => .null) ∧
    coerceCell (.text "42") = .str "42" ∧
    (∀ i, coerceCell (.integer i) = .int i) ∧
    (∀ v, getString v = none → getI64 v = none → getF64 v = none →
      coerceCell v = .null) := by
  refine ⟨fun cols rows => rfl, fun v => ?_, rfl, fun i => rfl, fun v h1 h2 h3 => ?_⟩
  · cases v <;> rfl
  · simp [coerceCell, h1, h2, h3]

/-- C4.  `sanitize_name` keeps exactly the alphanumeric/underscore characters
and lower-cases the result; the on-disk filename is derived from the sanitized
form, so any two names with equal sanitizations map to the same file. -/
theorem c4_sanitize_name_spec :
    (∀ name : String, (sanitize_name name).data =
      (name.data.filter (fun c => c.isAlphanum || c == '_')).map Char.toLower) ∧
    (∀ name : String, db_filename name = sanitize_name name ++ ".db") ∧
    (∀ n₁ n₂ : String, sanitize_name n₁ = sanitize_name n₂ →
      db_filename n₁ = db_filename n₂) := by
  refine ⟨fun name => rfl, fun name => rfl, fun n₁ n₂ h => ?_⟩
  simp [db_filename, h]

/-- Witness for C4 at concrete inputs: "Foo Bar" and "fooBAR" are distinct
names that sanitize to "foobar" and hence collide on "foobar.db". -/
theorem c4_sanitize_name_spec_witness :
    sanitize_name "Foo Bar" = "foobar" ∧ sanitize_name "fooBAR" = "foobar" ∧
    ("Foo Bar" : String) ≠ "fooBAR" ∧
    db_filename "Foo Bar" = db_filename "fooBAR" := by
  refine ⟨by decide, by decide, by decide, ?_⟩
  exact c4_sanitize_name_spec.2.2 "Foo Bar" "fooBAR" (by decide)

/-- After filtering out every record with a given name, a search for that
name finds nothing. -/
theorem find?_name_filter (l : List DbRecord) (name : String) :
    (l.filter (fun r => !(r.name == name))).find? (fun r => r.name == name) = none := by
  rw [List.find?_eq_none]
  intro x hx
  simpa using List.of_mem_filter hx

/-- After filtering out a path, looking that path up finds nothing. -/
theorem lookupFile_filter (files : List (String × FileInfo)) (path : String) :
    lookupFile (files.filter (fun p => !(p.1 == path))) path = none := by
  have h : (files.filter (fun p => !(p.1 == path))).find? (fun p => p.1 == path) = none := by
    rw [List.find?_eq_none]
    intro x hx
    simpa using List.of_mem_filter hx
  unfold lookupFile
  rw [h]
  rfl

/-- Filtering twice by the same predicate is filtering once. -/
theorem filter_self_idem {α : Type} (p : α → Bool) (l : List α) :
    (l.filter p).filter p = l.filter p := by
  rw [List.filter_filter]
  simp

/-- C5.  Deletion is idempotent: `delete` always reports success — also for a
name never created — `get` right after `delete` returns "not found", and a
second `delete` of the same name is a no-op that still succeeds. -/
theorem c5_delete_idempotent (s : EngineState) (name : String) :
    (delete_database s name).2 = .ok () ∧
    get_database (delete_database s name).1 name = .ok none ∧
    delete_database (delete_database s name).1 name =
      ((delete_database s name).1, .ok ()) := by
  refine ⟨rfl, ?_, ?_⟩
  · unfold get_database delete_database
    rw [find?_name_filter]
  · unfold delete_database
    cases hv : lookupFile s.files (db_filename name) with
    | some f => simp [hv, lookupFile_filter, filter_self_idem]
    | none => simp [hv, filter_self_idem]

/-- C6.  A successful `create` returns an info with `tables_count = 0` and
status `Active`; every `DatabaseInfo` produced by `create`, `list` or `get`
has status `Active` — the `Syncing`/`Offline`/`Error` states are never
produced. -/
theorem c6_status_always_active :
    (∀ s id now name client_app s' info,
      create_database s id now name client_app = (s', Except.ok info) →
      info.tables_count = 0 ∧ info.status = DatabaseStatus.Active) ∧
    (∀ s l, list_databases s = .ok l → ∀ i ∈ l, i.status = DatabaseStatus.Active) ∧
    (∀ s name i, get_database s name = .ok (some i) →
      i.status = DatabaseStatus.Active) := by
  refine ⟨?_, ?_, ?_⟩
  · intro s id now name client_app s' info h
    unfold create_database at h
    cases hco : connOpen s.files (db_filename name) with
    | error e => rw [hco] at h; simp at h
    | ok files' =>
      rw [hco] at h
      by_cases hc : s.catalog.any (fun r => r.name == name)
      · simp [hc] at h
      · simp [hc] at h
        rw [← h.2]
        exact ⟨rfl, rfl⟩
  · intro s l hl i hi
    unfold list_databases at hl
    cases hl
    obtain ⟨r, _, hr⟩ := List.mem_map.mp hi
    rw [← hr]
    rfl
  · intro s name i h
    unfold get_database at h
    cases hf : s.catalog.find? (fun r => r.name == name) with
    | none => rw [hf] at h; simp at h
    | some r =>
      rw [hf] at h
      simp at h
      rw [← h]
      rfl

/-- Witness for C6: creating "orders" for "shop" in the empty state succeeds
and the returned info has `tables_count = 0` and status `Active`. -/
theorem c6_status_always_active_witness :
    (⟨"id-1", "orders", "shop", 5, 0, 0, .Active⟩ : DatabaseInfo).tables_count = 0 ∧
    (⟨"id-1", "orders", "shop", 5, 0, 0, .Active⟩ : DatabaseInfo).status =
      DatabaseStatus.Active :=
  c6_status_always_active.1 ⟨[], []⟩ "id-1" 5 "orders" "shop"
    ⟨[⟨"id-1", "orders", "shop", 5⟩], [("orders.db", ⟨0, 0, true⟩)]⟩
    ⟨"id-1", "orders", "shop", 5, 0, 0, .Active⟩ rfl

/-- C8.  `list` returns all catalog rows as derived infos, ordered by
`created_at` descending, and on an empty catalog it succeeds with the empty
list. -/
theorem c8_list_order (s : EngineState) :
    ∃ l, list_databases s = .ok l ∧
      List.Sorted (fun a b : DatabaseInfo => a.created_at ≥ b.created_at) l ∧
      l.Perm (s.catalog.map (toInfo s.files)) ∧
      list_databases { catalog := [], files := s.files } = .ok [] := by
  refine ⟨_, rfl, ?_, ?_, rfl⟩
  · exact List.Pairwise.map _ (fun a b h => h)
      (List.sorted_insertionSort byCreatedDesc s.catalog)
  · exact (List.perm_insertionSort byCreatedDesc s.catalog).map _

/-- C10.  Derived metadata is best-effort and total: a missing or unreadable
backing file yields `size_bytes = 0` and `tables_count = 0`, and `list`/`get`
still succeed rather than erroring. -/
theorem c10_best_effort_metadata :
    (∀ files path, lookupFile files path = none →
      get_file_size files path = 0 ∧ get_table_count files path = 0) ∧
    (∀ files path f, lookupFile files path = some f → f.readable = false →
      get_file_size files path = 0 ∧ get_table_count files path = 0) ∧
    (∀ files r, lookupFile files (db_filename r.name) = none →
      (toInfo files r).size_bytes = 0 ∧ (toInfo files r).tables_count = 0) ∧
    (∀ s, ∃ l, list_databases s = .ok l) ∧
    (∀ s name, ∃ o, get_database s name = .ok o) := by
  refine ⟨?_, ?_, ?_, ?_, ?_⟩
  · intro files path h
    refine ⟨?_, ?_⟩
    · unfold get_file_size
      rw [h]
    · unfold get_table_count
      rw [h]
  · intro files path f h hf
    refine ⟨?_, ?_⟩
    · unfold get_file_size
      rw [h]
      simp [hf]
    · unfold get_table_count
      rw [h]
      simp [hf]
  · intro files r h
    constructor
    · show get_file_size files (db_filename r.name) = 0
      unfold get_file_size
      rw [h]
    · show get_table_count files (db_filename r.name) = 0
      unfold get_table_count
      rw [h]
  · intro s
    exact ⟨_, rfl⟩
  · intro s name
    unfold get_database
    cases s.catalog.find? (fun r => r.name == name) <;> exact ⟨_, rfl⟩

/-- Witness for C10: a path not in the data directory has size 0 and table
count 0; a present but unreadable file likewise. -/
theorem c10_best_effort_metadata_witness :
    (get_file_size [] "ghost.db" = 0 ∧ get_table_count [] "ghost.db" = 0) ∧
    (get_file_size [("bad.db", ⟨7, 3, false⟩)] "bad.db" = 0 ∧
      get_table_count [("bad.db", ⟨7, 3, false⟩)] "bad.db" = 0) :=
  ⟨c10_best_effort_metadata.1 [] "ghost.db" rfl,
   c10_best_effort_metadata.2.1 [("bad.db", ⟨7, 3, false⟩)] "bad.db" ⟨7, 3, false⟩ rfl rfl⟩

/-- Witness for C1 at a concrete input: on a BLOB cell every typed read fails
and the coercion yields JSON null. -/
theorem c1_select_cell_coercion_witness :
    getString (.blob [0]) = none ∧ getI64 (.blob [0]) = none ∧
    getF64 (.blob [0]) = none ∧ coerceCell (.blob [0]) = .null :=
  ⟨rfl, rfl, rfl, c1_select_cell_coercion.2.2.2.2 (.blob [0]) rfl rfl rfl⟩

/-- C2, as the code actually behaves: the `GET /api/pairing-code` handler
returns the frozen `AppState.pairing_code` field set at process start, so
after a rotation it still reports the old code even though validation already
uses the new one.  Evaluated at a concrete failing input. -/
theorem c2_get_pairing_code_returns_stale :
    (get_pairing_code
        (regenerate_pairing_code
          (appStateNew "1b9d6bcd-bbfd-4b2d-9b5d-ab8dfbbd4bed")
          "ffffffff-0000-0000-0000-000000000000").1 = "1B9D6B") ∧
    ((regenerate_pairing_code
        (appStateNew "1b9d6bcd-bbfd-4b2d-9b5d-ab8dfbbd4bed")
        "ffffffff-0000-0000-0000-000000000000").2 = "FFFFFF") ∧
    (validate_pairing_code
        (regenerate_pairing_code
          (appStateNew "1b9d6bcd-bbfd-4b2d-9b5d-ab8dfbbd4bed")
          "ffffffff-0000-0000-0000-000000000000").1 "FFFFFF" = true) ∧
    (get_pairing_code
        (regenerate_pairing_code
          (appStateNew "1b9d6bcd-bbfd-4b2d-9b5d-ab8dfbbd4bed")
          "ffffffff-0000-0000-0000-000000000000").1 ≠ "FFFFFF") := by
  refine ⟨rfl, rfl, rfl, ?_⟩
  decide

/-- C3.  Validation is exact string equality with the current secret;
rotation installs the fresh code, so any old code distinct from the new one
is rejected by the query handler with HTTP 401 "Invalid pairing code" while
the engine state — and with it every tenant database — is left untouched,
whatever statement was submitted. -/
theorem c3_rotation_invalidates_old_code (st : AppStateM) (uuid old : String)
    (es : EngineState) (db q : String) (sem : StmtSem)
    (hne : old ≠ (regenerate_pairing_code st uuid).2) :
    (∀ stx : AppStateM, ∀ c,
      validate_pairing_code stx c = true ↔ stx.pairing_code_inner = c) ∧
    validate_pairing_code (regenerate_pairing_code st uuid).1
      (regenerate_pairing_code st uuid).2 = true ∧
    validate_pairing_code (regenerate_pairing_code st uuid).1 old = false ∧
    execute_query_handler (regenerate_pairing_code st uuid).1 es db q old sem =
      ({ status := 401, success := false, error := some "Invalid pairing code" }, es) := by
  have hval : validate_pairing_code (regenerate_pairing_code st uuid).1 old = false := by
    unfold validate_pairing_code regenerate_pairing_code
    unfold regenerate_pairing_code at hne
    simpa using fun hcontra => hne (by rw [hcontra])
  refine ⟨?_, ?_, hval, ?_⟩
  · intro stx c
    unfold validate_pairing_code
    exact beq_iff_eq
  · unfold validate_pairing_code regenerate_pairing_code
    simp
  · unfold execute_query_handler
    rw [hval]
    simp

/-- Witness for C3: after rotating to "FFFFFF", the stale code "ZZZZZZ" is
rejected with 401 and the (empty) engine state is returned unchanged. -/
theorem c3_rotation_invalidates_old_code_witness :
    validate_pairing_code
      (regenerate_pairing_code (appStateNew "abc123-uuid")
        "ffffffff-0000-0000-0000-000000000000").1 "ZZZZZZ" = false ∧
    execute_query_handler
      (regenerate_pairing_code (appStateNew "abc123-uuid")
        "ffffffff-0000-0000-0000-000000000000").1
      ⟨[], []⟩ "orders" "SELECT 1" "ZZZZZZ" ⟨.ok ([], []), .ok 0⟩ =
      ({ status := 401, success := false, error := some "Invalid pairing code" },
        ⟨[], []⟩) := by
  have h := c3_rotation_invalidates_old_code (appStateNew "abc123-uuid")
    "ffffffff-0000-0000-0000-000000000000" "ZZZZZZ"
    ⟨[], []⟩ "orders" "SELECT 1" ⟨.ok ([], []), .ok 0⟩ (by decide)
  exact ⟨h.2.2.1, h.2.2.2⟩

/-- C7.  Statement classification is the case-insensitive SELECT-prefix test
on the trimmed text: SELECT statements produce the array of row objects,
everything else runs as a mutation and produces `{"affected_rows": n}` —
also for `n = 0`, which is a success, not an error. -/
theorem c7_statement_classification (s : EngineState) (db q : String)
    (sem : StmtSem) (files' : List (String × FileInfo)) (cols : List String)
    (rows : List (List SqlValue)) (n : Nat)
    (hopen : connOpen s.files (db_filename db) = .ok files') :
    (is_select_query q = true ↔
      ∃ rest, (rust_to_uppercase (rust_trim q)).data = "SELECT".data ++ rest) ∧
    (is_select_query "sElEcT 1" = true ∧ is_select_query "  select * from t" = true ∧
      is_select_query "DELETE FROM t" = false ∧ is_select_query "insert into t" = false) ∧
    (is_select_query q = true → sem.select = .ok (cols, rows) →
      execute_query s db q sem =
        ({ s with files := files' }, .ok (selectResultJson cols rows))) ∧
    (is_select_query q = false → sem.affected = .ok n →
      execute_query s db q sem =
        ({ s with files := files' }, .ok (.obj [("affected_rows", .int n)]))) := by
  refine ⟨?_, ⟨by decide, by decide, by decide, by decide⟩, ?_, ?_⟩
  · unfold is_select_query
    rw [List.isPrefixOf_iff_prefix]
    constructor
    · intro h
      obtain ⟨rest, hrest⟩ := h
      exact ⟨rest, hrest.symm⟩
    · intro h
      obtain ⟨rest, hrest⟩ := h
      exact ⟨rest, hrest.symm⟩
  · intro hsel hsem
    unfold execute_query
    rw [hopen, hsel, hsem]
    simp
  · intro hsel hsem
    unfold execute_query
    rw [hopen, hsel, hsem]
    simp

/-- Witness for C7: in the empty state, "SELECT 1" yields the serialized row
and "DELETE FROM t" with zero affected rows succeeds with
`{"affected_rows": 0}`. -/
theorem c7_statement_classification_witness :
    execute_query ⟨[], []⟩ "orders" "SELECT 1"
        ⟨.ok (["1"], [[.integer 1]]), .ok 0⟩ =
      (⟨[], [("orders.db", ⟨0, 0, true⟩)]⟩,
        .ok (selectResultJson ["1"] [[.integer 1]])) ∧
    execute_query ⟨[], []⟩ "orders" "DELETE FROM t"
        ⟨.ok ([], []), .ok 0⟩ =
      (⟨[], [("orders.db", ⟨0, 0, true⟩)]⟩,
        .ok (.obj [("affected_rows", .int 0)])) :=
  ⟨(c7_statement_classification ⟨[], []⟩ "orders" "SELECT 1"
      ⟨.ok (["1"], [[.integer 1]]), .ok 0⟩ [("orders.db", ⟨0, 0, true⟩)]
      ["1"] [[.integer 1]] 0 rfl).2.2.1 (by decide) rfl,
   (c7_statement_classification ⟨[], []⟩ "orders" "DELETE FROM t"
      ⟨.ok ([], []), .ok 0⟩ [("orders.db", ⟨0, 0, true⟩)]
      [] [] 0 rfl).2.2.2 (by decide) rfl⟩

/-- C9.  Executing a statement against a name with no catalog row does not
yield `NotFound`: the catalog is never consulted, opening the resolved path
creates an empty backing file, and the statement runs against that fresh
database (a SELECT succeeding with whatever rows it yields); the catalog is
unchanged, so the new file is orphaned. -/
theorem c9_query_creates_orphan_file (s : EngineState) (db q : String)
    (sem : StmtSem)
    (hno : ∀ r ∈ s.catalog, r.name ≠ db)
    (habs : lookupFile s.files (db_filename db) = none) :
    (∀ m, (execute_query s db q sem).2 ≠ .error (.NotFound m)) ∧
    (execute_query s db q sem).1.catalog = s.catalog ∧
    lookupFile (execute_query s db q sem).1.files (db_filename db) =
      some ⟨0, 0, true⟩ ∧
    (∀ r ∈ (execute_query s db q sem).1.catalog, r.name ≠ db) ∧
    (is_select_query q = true → ∀ cols rows, sem.select = .ok (cols, rows) →
      (execute_query s db q sem).2 = .ok (selectResultJson cols rows)) := by
  have hopen : connOpen s.files (db_filename db) =
      .ok ((db_filename db, ⟨0, 0, true⟩) :: s.files) := by
    unfold connOpen
    rw [habs]
  have hq : execute_query s db q sem =
      if is_select_query q then
        match sem.select with
        | .ok (cols, rows) =>
          ({ s with files := (db_filename db, ⟨0, 0, true⟩) :: s.files },
            .ok (selectResultJson cols rows))
        | .error e =>
          ({ s with files := (db_filename db, ⟨0, 0, true⟩) :: s.files },
            .error (.Database e))
      else
        match sem.affected with
        | .ok n =>
          ({ s with files := (db_filename db, ⟨0, 0, true⟩) :: s.files },
            .ok (.obj [("affected_rows", .int n)]))
        | .error e =>
          ({ s with files := (db_filename db, ⟨0, 0, true⟩) :: s.files },
            .error (.Database e)) := by
    unfold execute_query
    rw [hopen]
  refine ⟨?_, ?_, ?_, ?_, ?_⟩
  · intro m
    rw [hq]
    by_cases hsel : is_select_query q
    · simp only [hsel, if_true]
      cases sem.select with
      | ok pr => cases pr; simp
      | error e => simp
    · simp only [hsel, if_false]
      cases sem.affected with
      | ok n => simp
      | error e => simp
  · rw [hq]
    by_cases hsel : is_select_query q
    · simp only [hsel, if_true]
      cases sem.select with
      | ok pr => cases pr; rfl
      | error e => rfl
    · simp only [hsel, if_false]
      cases sem.affected with
      | ok n => rfl
      | error e => rfl
  · rw [hq]
    by_cases hsel : is_select_query q
    · simp only [hsel, if_true]
      cases sem.select with
      | ok pr => cases pr; simp [lookupFile]
      | error e => simp [lookupFile]
    · simp only [hsel, if_false]
      cases sem.affected with
      | ok n => simp [lookupFile]
      | error e => simp [lookupFile]
  · rw [hq]
    by_cases hsel : is_select_query q
    · simp only [hsel, if_true]
      cases sem.select with
      | ok pr => cases pr; exact hno
      | error e => exact hno
    · simp only [hsel, if_false]
      cases sem.affected with
      | ok n => exact hno
      | error e => exact hno
  · intro hsel cols rows hsem
    rw [hq, hsem]
    simp [hsel]

/-- Witness for C9: querying "ghost" — never created — with "SELECT 1"
succeeds, leaves the catalog empty, and leaves behind the fresh empty file
`ghost.db`. -/
theorem c9_query_creates_orphan_file_witness :
    (execute_query ⟨[], []⟩ "ghost" "SELECT 1"
        ⟨.ok (["1"], [[.integer 1]]), .ok 0⟩).1.catalog = [] ∧
    lookupFile (execute_query ⟨[], []⟩ "ghost" "SELECT 1"
        ⟨.ok (["1"], [[.integer 1]]), .ok 0⟩).1.files (db_filename "ghost") =
      some ⟨0, 0, true⟩ ∧
    (execute_query ⟨[], []⟩ "ghost" "SELECT 1"
        ⟨.ok (["1"], [[.integer 1]]), .ok 0⟩).2 =
      .ok (selectResultJson ["1"] [[.integer 1]]) := by
  have h := c9_query_creates_orphan_file ⟨[], []⟩ "ghost" "SELECT 1"
    ⟨.ok (["1"], [[.integer 1]]), .ok 0⟩ (by intro r hr; cases hr) rfl
  exact ⟨h.2.1, h.2.2.1, h.2.2.2.2 (by decide) ["1"] [[.integer 1]] rfl⟩

end Adba
